import Mathlib

/-!
Verification of the delinquency-consolidation and account-balance engine of a
condominium fee-management backend (FastAPI + spreadsheet store).

The embedding below translates the relevant Python functions:
  - API/backend_api/main.py, actualizar_semaforo (lines 364-481): balance,
    delinquency classification and per-entity consolidation;
  - API/backend_api/main.py, get_estado_cuenta (lines 567-696): the reported
    balance of the admin account-statement endpoint;
  - API/backend_api/sheets_service.py, generate_next_movement_id (lines 227-245);
  - API/backend_api/sheets_service.py, get_all_casa_ids (lines 198-224);
  - API/backend_api/sheets_service.py, update_or_append_semaforo (lines 257-301):
    modelled through a success oracle, since it catches store exceptions and
    returns a boolean that the caller ignores;
  - API/backend_api/sheets_service.py, get_semaforo_by_casa (lines 303-334):
    the keys of the dictionary it returns.

Python floats are modelled as exact rationals, dates as integer day numbers
(the ordering and day-difference structure of datetime.date), and Python
strings as Lean strings, with the handful of string primitives the source
uses (startswith, slicing, isdigit, upper, int()) re-implemented over the
character list so that they evaluate on concrete inputs.
-/

/-- String literal used by the source: movement kind of a monthly due. -/
def sALICUOTA : String := "ALICUOTA"

/-- String literal used by the source: green severity. -/
def sVERDE : String := "VERDE"

/-- String literal used by the source: yellow severity. -/
def sAMARILLO : String := "AMARILLO"

/-- String literal used by the source: red severity. -/
def sROJO : String := "ROJO"

/-- String literal used by the source: active-entity flag. -/
def sACTIVO : String := "ACTIVO"

/-- Key of the balance column in the dictionary built by get_semaforo_by_casa. -/
def kSALDO : String := "SALDO"

/-- Key read by get_estado_cuenta for the stored balance (main.py line 659). -/
def kSALDO_PENDIENTE : String := "SALDO_PENDIENTE"

/-- Key of the days-overdue column. -/
def kDIAS_ATRASO : String := "DIAS_ATRASO"

/-- Key of the overdue-count column. -/
def kCUOTAS_PENDIENTES : String := "CUOTAS_PENDIENTES"

/-- One row of the MOVIMIENTOS sheet, restricted to the columns the embedded
logic reads.  MONTO is the result of Python float() on the raw cell: none
models a malformed amount (float() raises, and every reader of this record
skips it via try/except continue).  A missing amount cell is some 0, the
source default.  FECHA_VENCIMIENTO is the result of strptime on the raw cell:
none models both an empty string and an unparseable date, which the source
treats identically (the record is excluded from the overdue set).  Dates are
integer day numbers, so that d <= hoy and (hoy - d).days are integer
comparison and subtraction. -/
structure MovRecord where
  ID_MOVIMIENTO : String
  ID_CASA : Int
  TIPO_MOVIMIENTO : String
  MONTO : Option ℚ
  FECHA_VENCIMIENTO : Option Int

/-- Python str.upper for the ASCII data the sheet holds, over the character
list (the core String.toUpper does not reduce in the kernel). -/
def pyUpper (s : String) : String := ⟨s.data.map Char.toUpper⟩

/-- Python uid.startswith applied to the one-character prefix used by the
source, generate_next_movement_id. -/
def pyStartsWithM (s : String) : Bool :=
  match s.data with
  | [] => false
  | c :: _ => c == 'M'

/-- Python uid[1:]: drop the first code point. -/
def pyDrop1 (s : String) : String := ⟨s.data.drop 1⟩

/-- Python s.isdigit() for ASCII strings: non-empty and all digits. -/
def pyIsDigit (s : String) : Bool :=
  !s.data.isEmpty && s.data.all Char.isDigit

/-- Python int() on a digit string. -/
def digitsToNat (s : String) : Nat :=
  s.data.foldl (fun a c => 10 * a + (c.toNat - 48)) 0

/-- Python round(x, 2) idealised over exact rationals: round half to even at
the second decimal.  The source rounds only at the reporting boundary
(main.py lines 455, 463, 659, 672, 688). -/
def roundHalfEven (q : ℚ) : ℤ :=
  if q - ⌊q⌋ < 1/2 then ⌊q⌋
  else if 1/2 < q - ⌊q⌋ then ⌊q⌋ + 1
  else if ⌊q⌋ % 2 = 0 then ⌊q⌋ else ⌊q⌋ + 1

/-- Two-decimal rounding, Python round(x, 2). -/
def round2 (q : ℚ) : ℚ := (roundHalfEven (q * 100) : ℚ) / 100

/-- Balance of a movement list: main.py lines 399-404.  The loop adds
float(m.get(MONTO, 0.0)) and skips a record whose amount fails to parse
(except ValueError/TypeError: continue). -/
def saldoOf (movimientos_casa : List MovRecord) : ℚ :=
  movimientos_casa.foldl
    (fun saldo m =>
      match m.MONTO with
      | some v => saldo + v
      | none => saldo)
    0

/-- Overdue-charge collection: main.py lines 413-433.  A record contributes
the pair (due date, movement id) when its amount parses, its kind uppercases
to ALICUOTA, its amount is positive, its due date is present and parses, and
the due date is on or before today.  Records failing any of these are
skipped, never fatal. -/
def cargosVencidos (hoy : Int) (movimientos_casa : List MovRecord) : List (Int × String) :=
  movimientos_casa.filterMap
    (fun m =>
      match m.MONTO, m.FECHA_VENCIMIENTO with
      | some monto, some fecha_vencimiento =>
        if pyUpper m.TIPO_MOVIMIENTO = sALICUOTA ∧ 0 < monto ∧ fecha_vencimiento ≤ hoy
        then some (fecha_vencimiento, m.ID_MOVIMIENTO)
        else none
      | _, _ => none)

/-- The per-entity fields computed by one iteration of the consolidation
loop: balance, severity, days overdue, overdue count. -/
structure CasaStatus where
  saldo : ℚ
  estado_semaforo : String
  dias_atraso : Int
  cuotas_pendientes : Nat

/-- Delinquency classification for one entity: main.py lines 398-448.
Defaults are VERDE, 0, 0.  When the balance exceeds 0.01 and overdue charges
exist, the source sorts them by due date, takes the first (the earliest due
date), sets dias_atraso to today minus that date, and chooses ROJO when
dias_atraso is at least 30 and AMARILLO otherwise; with a positive balance
but no overdue charge it chooses AMARILLO with zero counters. -/
def clasificarCasa (hoy : Int) (movimientos_casa : List MovRecord) : CasaStatus :=
  let saldo := saldoOf movimientos_casa
  if 1/100 < saldo then
    match cargosVencidos hoy movimientos_casa with
    | [] => ⟨saldo, sAMARILLO, 0, 0⟩
    | c :: cs =>
      let cargos_ordenados := (c :: cs).mergeSort (fun a b => a.1 ≤ b.1)
      let fecha_mora := (cargos_ordenados.headD c).1
      let dias_atraso := hoy - fecha_mora
      ⟨saldo, if 30 ≤ dias_atraso then sROJO else sAMARILLO, dias_atraso, (c :: cs).length⟩
  else ⟨saldo, sVERDE, 0, 0⟩

/-- Contact fields of one USUARIOS row as mapped by get_all_users_map
(sheets_service.py lines 178-195): every entry carries the three fields,
defaulted at map-construction time. -/
structure Contact where
  NOMBRE : String
  EMAIL : String
  CELULAR : String

/-- One row of the USUARIOS sheet, restricted to the columns get_all_casa_ids
reads.  ID_CASA is the result of int(float(cell)): none models both an empty
cell and an unparseable one, which the source skips identically.  ESTADO is
the raw flag cell, already stripped (the source strips it before
comparison), defaulted to ACTIVO when the column is missing. -/
structure UserRecord where
  ID_CASA : Option Int
  ESTADO : String

/-- Active-entity listing: sheets_service.py lines 198-224.  Keeps each
parseable id whose ESTADO uppercases to ACTIVO, deduplicates in first-seen
order (if casa_id not in casa_ids), and returns the sorted list. -/
def get_all_casa_ids (records : List UserRecord) : List Int :=
  (records.foldl
    (fun casa_ids record =>
      match record.ID_CASA with
      | some casa_id =>
        if pyUpper record.ESTADO = sACTIVO then
          if casa_id ∈ casa_ids then casa_ids else casa_ids ++ [casa_id]
        else casa_ids
      | none => casa_ids)
    []).mergeSort (fun a b => a ≤ b)

/-- One element of the results list returned by the consolidation endpoint:
the SemaforoResult schema as filled at main.py lines 461-470. -/
structure ResultEntry where
  ID_CASA : String
  SALDO : ℚ
  ESTADO_SEMAFORO : String
  DIAS_ATRASO : Int
  CUOTAS_PENDIENTES : Nat
  nombre_condomino : String
  email : String
  celular : String

/-- The payload of one update_or_append_semaforo call: the five arguments
passed at main.py lines 452-458 (the store adds the timestamp column). -/
structure SemaforoWrite where
  id_casa : Int
  dias_atraso : Int
  saldo : ℚ
  estado : String
  cuotas_pendientes : Nat

/-- Outcome of one consolidation run: the sequence of status writes, each
paired with the boolean that update_or_append_semaforo returned (true on
success, false when it caught a store exception — sheets_service.py lines
290-301; the caller never reads it), plus the response fields: status
string, the entity count interpolated into the success message
(main.py line 474), and the results list. -/
structure ConsolidacionRun where
  writes : List (SemaforoWrite × Bool)
  status : String
  message_count : Nat
  results : List ResultEntry

/-- One iteration of the consolidation loop, main.py lines 387-470: filter
the movement set to the entity, classify, write the status row (the write
outcome comes from the writeOk oracle, standing for whether the underlying
sheet update raises — the exception is caught inside
update_or_append_semaforo, which returns false in that case), and build the
result entry with directory contact fields defaulted when absent. -/
def procesarCasa (hoy : Int) (movimientos_data : List MovRecord)
    (user_map : Int → Option Contact) (writeOk : Int → Bool) (casa_id : Int) :
    (SemaforoWrite × Bool) × ResultEntry :=
  let movimientos_casa := movimientos_data.filter (fun m => m.ID_CASA == casa_id)
  let st := clasificarCasa hoy movimientos_casa
  let nombre :=
    match user_map casa_id with
    | some u => u.NOMBRE
    | none => "N/A (Casa " ++ toString casa_id ++ ")"
  let email :=
    match user_map casa_id with
    | some u => u.EMAIL
    | none => "N/A"
  let celular :=
    match user_map casa_id with
    | some u => u.CELULAR
    | none => "N/A"
  let write : SemaforoWrite :=
    ⟨casa_id, st.dias_atraso, round2 st.saldo, st.estado_semaforo, st.cuotas_pendientes⟩
  let ok := writeOk casa_id
  ⟨⟨write, ok⟩,
   ⟨toString casa_id, round2 st.saldo, st.estado_semaforo, st.dias_atraso,
    st.cuotas_pendientes, nombre, email, celular⟩⟩

/-- The consolidation endpoint, main.py lines 364-481.  Entity 0 is removed
from the id list (line 377); an empty remainder returns the warning response
with no writes and no results; otherwise each remaining entity is processed
in order, producing exactly one write and one result entry, and the success
message reports the processed-entity count. -/
def actualizar_semaforo (all_casa_ids : List Int) (movimientos_data : List MovRecord)
    (user_map : Int → Option Contact) (hoy : Int) (writeOk : Int → Bool) :
    ConsolidacionRun :=
  let casa_ids := all_casa_ids.filter (fun i => i != 0)
  if casa_ids.isEmpty then
    ⟨[], "warning", 0, []⟩
  else
    let pairs := casa_ids.map (procesarCasa hoy movimientos_data user_map writeOk)
    ⟨pairs.map Prod.fst, "success", casa_ids.length, pairs.map Prod.snd⟩

/-- Literal first id of the movement sequence. -/
def litM0001 : String := "M0001"

/-- Fixed-width id formatting, Python f-string 04d with the M prefix:
sheets_service.py line 245. -/
def formatMovementId (n : Nat) : String :=
  let ds := Nat.toDigits 10 n
  ⟨'M' :: (List.replicate (4 - ds.length) '0' ++ ds)⟩

/-- The filter of sheets_service.py line 237: a kept id is truthy, starts
with M and has a digit-only remainder. -/
def isValidMovId (uid : String) : Bool :=
  !uid.data.isEmpty && pyStartsWithM uid && pyIsDigit (pyDrop1 uid)

/-- Movement id allocator: sheets_service.py lines 227-245.  all_ids is the
id column without its header row.  Python max over a non-empty Nat list is
embedded as foldl max 0, which agrees with it. -/
def generate_next_movement_id (all_ids : List String) : String :=
  if all_ids.isEmpty then litM0001
  else
    let valid_ids := all_ids.filter isValidMovId
    let last_number :=
      if valid_ids.isEmpty then 0
      else (valid_ids.map (fun uid => digitsToNat (pyDrop1 uid))).foldl max 0
    formatMovementId (last_number + 1)

/-- One stored ALERTAS_SEMAFORO row as parsed by get_semaforo_by_casa,
sheets_service.py lines 303-334. -/
structure SemaforoRow where
  ID_CASA : String
  SALDO : ℚ
  DIAS_ATRASO : Int
  ESTADO_SEMAFORO : String
  CUOTAS_PENDIENTES : Int
  FECHA_ACTUALIZACION : String

/-- The numeric entries of the dictionary get_semaforo_by_casa returns
(sheets_service.py lines 321-328): the balance is stored under the key
SALDO; there is no SALDO_PENDIENTE key. -/
def semaforoDictNum (r : SemaforoRow) (k : String) : Option ℚ :=
  if k = kSALDO then some r.SALDO
  else if k = kDIAS_ATRASO then some (r.DIAS_ATRASO : ℚ)
  else if k = kCUOTAS_PENDIENTES then some (r.CUOTAS_PENDIENTES : ℚ)
  else none

/-- The numeric entries of the default status dictionary synthesized by
get_estado_cuenta when no stored row exists, main.py lines 590-598. -/
def semaforoDefaultNum (k : String) : Option ℚ :=
  if k = kDIAS_ATRASO then some 0
  else if k = kSALDO_PENDIENTE then some 0
  else if k = kCUOTAS_PENDIENTES then some 0
  else none

/-- The balance reported by the admin account-statement endpoint
(saldo_pendiente of the response), main.py lines 567-689.  For a
non-treasury entity the source takes round(semaforo_info.get(
SALDO_PENDIENTE, 0.0), 2) from the stored (or synthesized) status
dictionary (lines 656-667); only for the treasury entity (id 0) does it
report the balance recomputed from the movement list (lines 605-608 and
668-680).  A malformed stored amount aborts the endpoint and is outside
this model; the recomputation sums float(m.get(MONTO, 0.0) or 0.0). -/
def get_estado_cuenta_saldo (id_casa : Int) (movimientos_data : List MovRecord)
    (stored : Option SemaforoRow) : ℚ :=
  let semaforo_info : String → Option ℚ :=
    if id_casa ≠ 0 then
      match stored with
      | some r => semaforoDictNum r
      | none => semaforoDefaultNum
    else fun _ => none
  let saldo_calculado := movimientos_data.foldl (fun s m => s + m.MONTO.getD 0) 0
  if id_casa ≠ 0 then round2 ((semaforo_info kSALDO_PENDIENTE).getD 0)
  else round2 saldo_calculado

/-- Modelled from the spec words for comparison with the source allocator:
a well-formed id is the letter prefix M followed by digits, and its numeric
suffix is the parsed digit string; any other id yields nothing. -/
def movementSuffix (uid : String) : Option Nat :=
  if pyStartsWithM uid && pyIsDigit (pyDrop1 uid) then some (digitsToNat (pyDrop1 uid))
  else none

/-- String literal used by the source: movement kind of a fine. -/
def sMULTA : String := "MULTA"

/-- String literal used by the source: movement kind of a payment. -/
def sPAGO : String := "PAGO"

/-- Literal movement id. -/
def litM0003 : String := "M0003"

/-- Literal malformed movement id. -/
def litX9999 : String := "X9999"

/-- Literal expected successor id. -/
def litM0004 : String := "M0004"

/-- Literal entity id string. -/
def lit5 : String := "5"

/-- Literal empty cell. -/
def litEmpty : String := ""

/-- Concrete movement: an ALICUOTA charge of 50 due on day 95, i.e. five
days before an evaluation date of 100. -/
def movC1 : MovRecord := ⟨litM0001, 1, sALICUOTA, some 50, some 95⟩

/-- Concrete movement: a fine of exactly 0.01 with no due date. -/
def movC3 : MovRecord := ⟨litM0003, 1, sMULTA, some (1/100), none⟩

/-- Concrete movement: a fine of 50 with no due date. -/
def movC3w : MovRecord := ⟨litM0003, 1, sMULTA, some 50, none⟩

/-- Concrete movement: an ALICUOTA charge of 50 due on day 95. -/
def movC4a : MovRecord := ⟨litM0001, 1, sALICUOTA, some 50, some 95⟩

/-- Concrete movement: a payment of 49.99. -/
def movC4b : MovRecord := ⟨litM0003, 1, sPAGO, some (-(4999/100)), none⟩

/-- Concrete movement list whose balance is exactly 0.01 while holding one
overdue ALICUOTA charge. -/
def movsC4 : List MovRecord := [movC4a, movC4b]

/-- Concrete movement: an ALICUOTA charge of 50 due on day 60, i.e. forty
days before an evaluation date of 100. -/
def movC4w : MovRecord := ⟨litM0003, 2, sALICUOTA, some 50, some 60⟩

/-- Concrete stored status row for entity 5 with balance 50. -/
def rowC8 : SemaforoRow := ⟨lit5, 50, 0, sVERDE, 0, litEmpty⟩

/-- Concrete movement of entity 5 with amount 50. -/
def movC8 : MovRecord := ⟨litM0001, 5, sALICUOTA, some 50, none⟩

/-- The folded balance is the sum of the parseable amounts: records whose
amount fails to parse are skipped without aborting the fold. -/
theorem saldoOf_eq_sum (movs : List MovRecord) :
    saldoOf movs = (movs.filterMap (fun m => m.MONTO)).sum := by
  have h : ∀ (l : List MovRecord) (a : ℚ),
      l.foldl (fun saldo m => match m.MONTO with | some v => saldo + v | none => saldo) a
        = a + (l.filterMap (fun m => m.MONTO)).sum := by
    intro l
    induction l with
    | nil => intro a; simp
    | cons m ms ih =>
      intro a
      cases hm : m.MONTO with
      | none => simp [List.filterMap_cons, hm, ih]
      | some v => simp [List.filterMap_cons, hm, ih, add_assoc]
  simpa [saldoOf] using h movs 0

/-- Classification when the balance does not exceed 0.01: the defaults
VERDE, 0, 0 survive. -/
theorem clasificar_of_le (hoy : Int) (movs : List MovRecord)
    (h : ¬ 1/100 < saldoOf movs) :
    clasificarCasa hoy movs = ⟨saldoOf movs, sVERDE, 0, 0⟩ := by
  unfold clasificarCasa
  simp only [if_neg h]

/-- Classification when the balance exceeds 0.01 but no overdue charge
exists: AMARILLO with zero counters. -/
theorem clasificar_pos_nil (hoy : Int) (movs : List MovRecord)
    (h1 : 1/100 < saldoOf movs) (h2 : cargosVencidos hoy movs = []) :
    clasificarCasa hoy movs = ⟨saldoOf movs, sAMARILLO, 0, 0⟩ := by
  unfold clasificarCasa
  simp only [h2, if_pos h1]

/-- Classification when the balance exceeds 0.01 and overdue charges exist:
the count, the days overdue through the sorted list, and the 30-day
threshold. -/
theorem clasificar_pos_cons (hoy : Int) (movs : List MovRecord) (c : Int × String)
    (cs : List (Int × String)) (h1 : 1/100 < saldoOf movs)
    (h2 : cargosVencidos hoy movs = c :: cs) :
    clasificarCasa hoy movs =
      ⟨saldoOf movs,
       if 30 ≤ hoy - (((c :: cs).mergeSort (fun a b => a.1 ≤ b.1)).headD c).1 then sROJO
       else sAMARILLO,
       hoy - (((c :: cs).mergeSort (fun a b => a.1 ≤ b.1)).headD c).1,
       (c :: cs).length⟩ := by
  unfold clasificarCasa
  simp only [h2, if_pos h1]

/-- The classifier's saldo field always carries the folded balance. -/
theorem clasificar_saldo (hoy : Int) (l : List MovRecord) :
    (clasificarCasa hoy l).saldo = saldoOf l := by
  by_cases h : 1/100 < saldoOf l
  · cases hc : cargosVencidos hoy l with
    | nil => rw [clasificar_pos_nil hoy l h hc]
    | cons c cs => rw [clasificar_pos_cons hoy l c cs h hc]
  · rw [clasificar_of_le hoy l h]

/-- The first element of the mergeSort of a non-empty list is one of its
elements. -/
theorem headD_mergeSort_mem (c : Int × String) (cs : List (Int × String)) :
    ((c :: cs).mergeSort (fun a b => a.1 ≤ b.1)).headD c ∈ c :: cs := by
  cases hms : (c :: cs).mergeSort (fun a b => a.1 ≤ b.1) with
  | nil =>
    have hp := List.mergeSort_perm (c :: cs) (fun a b => a.1 ≤ b.1)
    rw [hms] at hp
    exact absurd hp.symm (by simp)
  | cons y ys =>
    have hmem : y ∈ (c :: cs).mergeSort (fun a b => a.1 ≤ b.1) := by
      rw [hms]; exact List.mem_cons_self _ _
    have := (List.mergeSort_perm (c :: cs) (fun a b => a.1 ≤ b.1)).subset hmem
    simpa [hms] using this

/-- The first element of the mergeSort by first component has the least
first component of the list. -/
theorem headD_mergeSort_min (c : Int × String) (cs : List (Int × String)) :
    ∀ x ∈ c :: cs, (((c :: cs).mergeSort (fun a b => a.1 ≤ b.1)).headD c).1 ≤ x.1 := by
  have hsorted := @List.sorted_mergeSort (Int × String) (fun a b => a.1 ≤ b.1)
    (by intro a b c hab hbc; simp at hab hbc ⊢; omega)
    (by intro a b; simp [Int.le_total])
    (c :: cs)
  have hperm := List.mergeSort_perm (c :: cs) (fun a b => a.1 ≤ b.1)
  intro x hx
  have hx' : x ∈ (c :: cs).mergeSort (fun a b => a.1 ≤ b.1) := hperm.symm.subset hx
  cases hms : (c :: cs).mergeSort (fun a b => a.1 ≤ b.1) with
  | nil => rw [hms] at hx'; simp at hx'
  | cons y ys =>
    rw [hms] at hx' hsorted
    simp only [List.headD]
    rcases List.mem_cons.mp hx' with h | h
    · subst h; exact le_refl _
    · have := (List.pairwise_cons.mp hsorted).1 x h
      simpa using this

/-- Every collected overdue charge has its due date on or before today: the
collection filtered on that very bound. -/
theorem cargos_le_hoy (hoy : Int) (movs : List MovRecord) :
    ∀ x ∈ cargosVencidos hoy movs, x.1 ≤ hoy := by
  intro x hx
  obtain ⟨m, _, hm⟩ := List.mem_filterMap.mp hx
  cases hMONTO : m.MONTO with
  | none => rw [hMONTO] at hm; simp at hm
  | some monto =>
    cases hFV : m.FECHA_VENCIMIENTO with
    | none => rw [hMONTO, hFV] at hm; simp at hm
    | some fv =>
      rw [hMONTO, hFV] at hm
      by_cases hcond : pyUpper m.TIPO_MOVIMIENTO = sALICUOTA ∧ 0 < monto ∧ fv ≤ hoy
      · simp only [if_pos hcond] at hm
        cases hm
        exact hcond.2.2
      · simp only [if_neg hcond] at hm
        exact absurd hm (by simp)

/-- The dedup guard of get_all_casa_ids keeps the accumulated id list free
of duplicates. -/
theorem foldl_casa_ids_nodup (records : List UserRecord) :
    ∀ (acc : List Int), acc.Nodup →
      (records.foldl
        (fun casa_ids record =>
          match record.ID_CASA with
          | some casa_id =>
            if pyUpper record.ESTADO = sACTIVO then
              if casa_id ∈ casa_ids then casa_ids else casa_ids ++ [casa_id]
            else casa_ids
          | none => casa_ids)
        acc).Nodup := by
  induction records with
  | nil => intro acc h; simpa using h
  | cons r rs ih =>
    intro acc h
    simp only [List.foldl_cons]
    apply ih
    cases hid : r.ID_CASA with
    | none => simpa using h
    | some casa_id =>
      simp only []
      by_cases hA : pyUpper r.ESTADO = sACTIVO
      · rw [if_pos hA]
        by_cases hmem : casa_id ∈ acc
        · rw [if_pos hmem]; exact h
        · rw [if_neg hmem]
          simp [List.nodup_append, h, hmem]
      · rw [if_neg hA]; exact h

/-- The active-entity list never repeats an id. -/
theorem get_all_casa_ids_nodup (records : List UserRecord) :
    (get_all_casa_ids records).Nodup := by
  unfold get_all_casa_ids
  exact (List.mergeSort_perm _ _).symm.nodup (foldl_casa_ids_nodup records [] (by simp))

/-- The status write of one loop iteration targets exactly the processed
entity. -/
theorem procesar_write_id (hoy : Int) (movs : List MovRecord) (umap : Int → Option Contact)
    (wOk : Int → Bool) (c : Int) : (procesarCasa hoy movs umap wOk c).1.1.id_casa = c := rfl

/-- One consolidation run emits the status writes in bijection with the
processed id list: the written entity ids are exactly the non-zero active
ids, in order. -/
theorem actualizar_writes_ids (ids : List Int) (movs : List MovRecord)
    (umap : Int → Option Contact) (hoy : Int) (wOk : Int → Bool) :
    (actualizar_semaforo ids movs umap hoy wOk).writes.map (fun w => w.1.id_casa)
      = ids.filter (fun i => i != 0) := by
  unfold actualizar_semaforo
  by_cases h : (ids.filter (fun i => i != 0)).isEmpty
  · simp only [if_pos h, List.map_nil]
    exact (List.isEmpty_iff.mp h).symm
  · simp only [if_neg h, List.map_map]
    show (ids.filter (fun i => i != 0)).map (fun c => c) = ids.filter (fun i => i != 0)
    simp

/-- A classification that reports VERDE reports zero days overdue and zero
pending dues: the non-default branches always report AMARILLO or ROJO. -/
theorem clasificar_verde (hoy : Int) (l : List MovRecord)
    (h : (clasificarCasa hoy l).estado_semaforo = sVERDE) :
    (clasificarCasa hoy l).dias_atraso = 0 ∧ (clasificarCasa hoy l).cuotas_pendientes = 0 := by
  by_cases hs : 1/100 < saldoOf l
  · cases hc : cargosVencidos hoy l with
    | nil =>
      rw [clasificar_pos_nil hoy l hs hc] at h
      have h' : sAMARILLO = sVERDE := h
      exact absurd h' (by decide)
    | cons c cs =>
      rw [clasificar_pos_cons hoy l c cs hs hc] at h
      by_cases hd : 30 ≤ hoy - (((c :: cs).mergeSort (fun a b => a.1 ≤ b.1)).headD c).1
      · rw [if_pos hd] at h
        have h' : sROJO = sVERDE := h
        exact absurd h' (by decide)
      · rw [if_neg hd] at h
        have h' : sAMARILLO = sVERDE := h
        exact absurd h' (by decide)
  · rw [clasificar_of_le hoy l hs]
    exact ⟨rfl, rfl⟩

/-- The response of a consolidation run (results, status, reported count)
and even the write payloads do not depend on whether the individual status
writes succeed: the write outcome is produced, then dropped. -/
theorem actualizar_indep (ids : List Int) (movs : List MovRecord)
    (umap : Int → Option Contact) (hoy : Int) (wOk wOk' : Int → Bool) :
    (actualizar_semaforo ids movs umap hoy wOk).results
        = (actualizar_semaforo ids movs umap hoy wOk').results ∧
      (actualizar_semaforo ids movs umap hoy wOk).status
        = (actualizar_semaforo ids movs umap hoy wOk').status ∧
      (actualizar_semaforo ids movs umap hoy wOk).message_count
        = (actualizar_semaforo ids movs umap hoy wOk').message_count ∧
      (actualizar_semaforo ids movs umap hoy wOk).writes.map Prod.fst
        = (actualizar_semaforo ids movs umap hoy wOk').writes.map Prod.fst := by
  unfold actualizar_semaforo
  by_cases h : (ids.filter (fun i => i != 0)).isEmpty
  · simp only [if_pos h]
    simp
  · simp only [if_neg h, List.map_map]
    simp
    exact ⟨fun a _ _ => rfl, fun a _ _ => rfl⟩

/-- Every entity in the processed id list contributes exactly one result
entry, so the results list has the length of the processed id list and the
count reported in the message equals that length. -/
theorem actualizar_results_length (ids : List Int) (movs : List MovRecord)
    (umap : Int → Option Contact) (hoy : Int) (wOk : Int → Bool) :
    (actualizar_semaforo ids movs umap hoy wOk).results.length
        = (ids.filter (fun i => i != 0)).length ∧
      (actualizar_semaforo ids movs umap hoy wOk).message_count
        = (actualizar_semaforo ids movs umap hoy wOk).results.length ∧
      (actualizar_semaforo ids movs umap hoy wOk).results.map (fun r => r.ID_CASA)
        = (ids.filter (fun i => i != 0)).map (fun i => toString i) := by
  unfold actualizar_semaforo
  by_cases h : (ids.filter (fun i => i != 0)).isEmpty
  · simp only [if_pos h]
    rw [List.isEmpty_iff.mp h]
    simp
  · simp only [if_neg h, List.map_map, List.length_map]
    simp
    exact fun a _ _ => rfl

/-- round(0.0, 2) is 0. -/
theorem round2_zero : round2 0 = 0 := by
  unfold round2 roundHalfEven
  norm_num

/-- The dictionary built from a stored status row holds no SALDO_PENDIENTE
key: its balance lives under SALDO. -/
theorem semaforoDictNum_pendiente (r : SemaforoRow) :
    semaforoDictNum r kSALDO_PENDIENTE = none := by
  unfold semaforoDictNum
  rw [if_neg (by decide), if_neg (by decide), if_neg (by decide)]

/-- The synthesized default status dictionary maps SALDO_PENDIENTE to 0. -/
theorem semaforoDefaultNum_pendiente : semaforoDefaultNum kSALDO_PENDIENTE = some 0 := by
  unfold semaforoDefaultNum
  rw [if_neg (by decide), if_pos rfl]

/-- For every non-treasury entity the statement endpoint reports 0: with a
stored row the SALDO_PENDIENTE lookup misses and defaults to 0; without one
the synthesized dictionary holds 0 there. -/
theorem estado_cuenta_nontreasury (id_casa : Int) (movs : List MovRecord)
    (stored : Option SemaforoRow) (h : id_casa ≠ 0) :
    get_estado_cuenta_saldo id_casa movs stored = 0 := by
  unfold get_estado_cuenta_saldo
  simp only [if_pos h]
  cases stored with
  | none =>
    show round2 ((semaforoDefaultNum kSALDO_PENDIENTE).getD 0) = 0
    rw [semaforoDefaultNum_pendiente]
    simp [round2_zero]
  | some r =>
    show round2 ((semaforoDictNum r kSALDO_PENDIENTE).getD 0) = 0
    rw [semaforoDictNum_pendiente]
    simp [round2_zero]

/-- For the treasury entity the statement endpoint reports the rounded sum
recomputed from the movement list. -/
theorem estado_cuenta_treasury (movs : List MovRecord) (stored : Option SemaforoRow) :
    get_estado_cuenta_saldo 0 movs stored
      = round2 (movs.foldl (fun s m => s + m.MONTO.getD 0) 0) := by
  unfold get_estado_cuenta_saldo
  simp

/-- The allocator's validity filter agrees with the spec-side condition:
the explicit non-emptiness test is subsumed by the prefix test. -/
theorem isValid_eq_cond (uid : String) :
    isValidMovId uid = (pyStartsWithM uid && pyIsDigit (pyDrop1 uid)) := by
  obtain ⟨data⟩ := uid
  cases data with
  | nil => rfl
  | cons c rest => rfl

/-- The source's filter-then-parse pipeline computes exactly the suffixes
the spec-side parser extracts. -/
theorem valid_map_eq_filterMap (ids : List String) :
    (ids.filter isValidMovId).map (fun uid => digitsToNat (pyDrop1 uid))
      = ids.filterMap movementSuffix := by
  induction ids with
  | nil => rfl
  | cons uid rest ih =>
    by_cases h : (pyStartsWithM uid && pyIsDigit (pyDrop1 uid)) = true
    · simp [List.filter_cons, List.filterMap_cons, isValid_eq_cond, h, movementSuffix, ih]
    · have hf : (pyStartsWithM uid && pyIsDigit (pyDrop1 uid)) = false := by
        revert h; cases pyStartsWithM uid && pyIsDigit (pyDrop1 uid) <;> simp
      simp [List.filter_cons, List.filterMap_cons, isValid_eq_cond, hf, movementSuffix, ih]

/-- The classifier's overdue outputs when overdue charges exist: the count
is the overdue-set size, and the days overdue are today minus one of the
overdue due dates, at least today minus any of them (hence today minus the
earliest), and non-negative. -/
theorem clasificar_dias_spec (hoy : Int) (movs : List MovRecord) (c : Int × String)
    (cs : List (Int × String)) (h1 : 1/100 < saldoOf movs)
    (h2 : cargosVencidos hoy movs = c :: cs) :
    (clasificarCasa hoy movs).cuotas_pendientes = (cargosVencidos hoy movs).length ∧
    ((clasificarCasa hoy movs).dias_atraso
        ∈ (cargosVencidos hoy movs).map (fun x => hoy - x.1)) ∧
    (∀ x ∈ cargosVencidos hoy movs, hoy - x.1 ≤ (clasificarCasa hoy movs).dias_atraso) ∧
    0 ≤ (clasificarCasa hoy movs).dias_atraso := by
  rw [clasificar_pos_cons hoy movs c cs h1 h2, h2]
  refine ⟨rfl, ?_, ?_, ?_⟩
  · exact List.mem_map.mpr ⟨((c :: cs).mergeSort (fun a b => a.1 ≤ b.1)).headD c,
      headD_mergeSort_mem c cs, rfl⟩
  · intro x hx
    have hmin := headD_mergeSort_min c cs x hx
    show hoy - x.1 ≤ hoy - (((c :: cs).mergeSort (fun a b => a.1 ≤ b.1)).headD c).1
    omega
  · have hmem : (((c :: cs).mergeSort (fun a b => a.1 ≤ b.1)).headD c) ∈ cargosVencidos hoy movs := by
      rw [h2]; exact headD_mergeSort_mem c cs
    have hle := cargos_le_hoy hoy movs _ hmem
    show (0 : Int) ≤ hoy - (((c :: cs).mergeSort (fun a b => a.1 ≤ b.1)).headD c).1
    omega

/-- Uppercasing the ALICUOTA literal is the identity. -/
theorem pyUpper_alicuota : pyUpper sALICUOTA = sALICUOTA := by decide

/-- Concrete balance of the five-days-overdue scenario. -/
theorem saldo_movC1 : saldoOf [movC1] = 50 := by
  norm_num [saldoOf, movC1]

/-- Concrete overdue set of the five-days-overdue scenario. -/
theorem cargos_movC1 : cargosVencidos 100 [movC1] = [(95, litM0001)] := by
  simp only [cargosVencidos, movC1, List.filterMap_cons, List.filterMap_nil]
  norm_num [pyUpper_alicuota]

/-- Concrete classification of the five-days-overdue scenario: the source
reports AMARILLO, five days overdue, one pending due. -/
theorem clasificar_movC1 : clasificarCasa 100 [movC1] = ⟨50, sAMARILLO, 5, 1⟩ := by
  have hy : (([(95, litM0001)] : List (Int × String)).mergeSort
      (fun a b => a.1 ≤ b.1)).headD (95, litM0001) = (95, litM0001) :=
    List.mem_singleton.mp (headD_mergeSort_mem (95, litM0001) [])
  rw [clasificar_pos_cons 100 [movC1] (95, litM0001) []
    (by rw [saldo_movC1]; norm_num) cargos_movC1, hy, saldo_movC1]
  norm_num

/-- Concrete balance of the 0.01-fine scenario. -/
theorem saldo_movC3 : saldoOf [movC3] = 1/100 := by
  norm_num [saldoOf, movC3]

/-- The 0.01 fine has no due date, so the overdue set is empty. -/
theorem cargos_movC3 : cargosVencidos 100 [movC3] = [] := by
  simp only [cargosVencidos, movC3, List.filterMap_cons, List.filterMap_nil]

/-- Concrete classification of the 0.01-fine scenario: VERDE. -/
theorem clasificar_movC3 : clasificarCasa 100 [movC3] = ⟨1/100, sVERDE, 0, 0⟩ := by
  rw [clasificar_of_le 100 [movC3] (by rw [saldo_movC3]; norm_num), saldo_movC3]

/-- Concrete balance of the 50-fine scenario. -/
theorem saldo_movC3w : saldoOf [movC3w] = 50 := by
  norm_num [saldoOf, movC3w]

/-- The 50 fine has no due date, so the overdue set is empty. -/
theorem cargos_movC3w : cargosVencidos 100 [movC3w] = [] := by
  simp only [cargosVencidos, movC3w, List.filterMap_cons, List.filterMap_nil]

/-- Concrete balance of the overdue-charge-nearly-paid scenario: exactly
0.01 remains owed. -/
theorem saldo_movsC4 : saldoOf movsC4 = 1/100 := by
  norm_num [saldoOf, movsC4, movC4a, movC4b]

/-- Concrete overdue set of the overdue-charge-nearly-paid scenario: the
ALICUOTA charge due on day 95 is overdue on day 100. -/
theorem cargos_movsC4 : cargosVencidos 100 movsC4 = [(95, litM0001)] := by
  simp only [cargosVencidos, movsC4, movC4a, movC4b, List.filterMap_cons, List.filterMap_nil]
  norm_num [pyUpper_alicuota]

/-- Concrete classification of the overdue-charge-nearly-paid scenario:
the 0.01 gate keeps the VERDE defaults although an overdue charge exists. -/
theorem clasificar_movsC4 : clasificarCasa 100 movsC4 = ⟨1/100, sVERDE, 0, 0⟩ := by
  rw [clasificar_of_le 100 movsC4 (by rw [saldo_movsC4]; norm_num), saldo_movsC4]

/-- Concrete balance of the forty-days-overdue scenario. -/
theorem saldo_movC4w : saldoOf [movC4w] = 50 := by
  norm_num [saldoOf, movC4w]

/-- Concrete overdue set of the forty-days-overdue scenario. -/
theorem cargos_movC4w : cargosVencidos 100 [movC4w] = [(60, litM0003)] := by
  simp only [cargosVencidos, movC4w, List.filterMap_cons, List.filterMap_nil]
  norm_num [pyUpper_alicuota]

/-- Claim C1, counterexample: for the movement list holding one ALICUOTA
charge of 50 due five days before today, the classifier reports daysOverdue
5 but severity AMARILLO, not the VERDE the three-tier model of the claim
assigns to daysOverdue below 15. -/
theorem claim_C1_counterexample :
    (clasificarCasa 100 [movC1]).dias_atraso = 5 ∧
    (clasificarCasa 100 [movC1]).estado_semaforo = sAMARILLO ∧
    sAMARILLO ≠ sVERDE := by
  rw [clasificar_movC1]
  exact ⟨rfl, rfl, by decide⟩

/-- Claim C1, amended: for every movement list whose balance exceeds 0.01
and whose overdue set is non-empty, the severity follows the two-tier model
the code implements: ROJO exactly when daysOverdue is at least 30, and
AMARILLO otherwise (so a charge five days overdue is AMARILLO). -/
theorem claim_C1_amended (hoy : Int) (movs : List MovRecord)
    (h1 : 1/100 < saldoOf movs) (h2 : cargosVencidos hoy movs ≠ []) :
    (clasificarCasa hoy movs).estado_semaforo
      = (if 30 ≤ (clasificarCasa hoy movs).dias_atraso then sROJO else sAMARILLO) := by
  cases hc : cargosVencidos hoy movs with
  | nil => exact absurd hc h2
  | cons c cs =>
    rw [clasificar_pos_cons hoy movs c cs h1 hc]

/-- Claim C1, amended, witness: the two-tier rule applied to the concrete
five-days-overdue scenario. -/
theorem claim_C1_amended_witness :
    (clasificarCasa 100 [movC1]).estado_semaforo
      = (if 30 ≤ (clasificarCasa 100 [movC1]).dias_atraso then sROJO else sAMARILLO) :=
  claim_C1_amended 100 [movC1] (by rw [saldo_movC1]; norm_num)
    (by rw [cargos_movC1]; simp)

/-- Claim C2: for every movement list whose balance is at most zero, the
classifier returns VERDE with zero days overdue and zero pending dues,
whatever the individual due dates are: the balance gate precedes the
overdue scan. -/
theorem claim_C2 (hoy : Int) (movs : List MovRecord) (h : saldoOf movs ≤ 0) :
    (clasificarCasa hoy movs).estado_semaforo = sVERDE ∧
    (clasificarCasa hoy movs).dias_atraso = 0 ∧
    (clasificarCasa hoy movs).cuotas_pendientes = 0 := by
  have hne : ¬ 1/100 < saldoOf movs := by
    intro hlt
    linarith
  rw [clasificar_of_le hoy movs hne]
  exact ⟨rfl, rfl, rfl⟩

/-- Claim C2, witness: the empty movement list has balance 0 and classifies
VERDE with zero counters. -/
theorem claim_C2_witness :
    (clasificarCasa 0 []).estado_semaforo = sVERDE ∧
    (clasificarCasa 0 []).dias_atraso = 0 ∧
    (clasificarCasa 0 []).cuotas_pendientes = 0 :=
  claim_C2 0 [] (le_of_eq rfl)

/-- Claim C3, counterexample: a single fine of exactly 0.01 gives a
strictly positive balance and no overdue charge, yet the classifier reports
VERDE, not the AMARILLO the claim asserts: the code's gate is
balance > 0.01, not balance > 0. -/
theorem claim_C3_counterexample :
    saldoOf [movC3] = 1/100 ∧
    0 < saldoOf [movC3] ∧
    cargosVencidos 100 [movC3] = [] ∧
    (clasificarCasa 100 [movC3]).estado_semaforo = sVERDE ∧
    sVERDE ≠ sAMARILLO := by
  refine ⟨saldo_movC3, by rw [saldo_movC3]; norm_num, cargos_movC3, ?_, by decide⟩
  rw [clasificar_movC3]

/-- Claim C3, amended: for every movement list whose balance exceeds 0.01
and which contains no overdue charge, the classifier returns AMARILLO with
zero overdue count and zero days overdue. -/
theorem claim_C3_amended (hoy : Int) (movs : List MovRecord)
    (h1 : 1/100 < saldoOf movs) (h2 : cargosVencidos hoy movs = []) :
    (clasificarCasa hoy movs).estado_semaforo = sAMARILLO ∧
    (clasificarCasa hoy movs).dias_atraso = 0 ∧
    (clasificarCasa hoy movs).cuotas_pendientes = 0 := by
  rw [clasificar_pos_nil hoy movs h1 h2]
  exact ⟨rfl, rfl, rfl⟩

/-- Claim C3, amended, witness: a single fine of 50 with no due date
classifies AMARILLO with zero counters. -/
theorem claim_C3_amended_witness :
    (clasificarCasa 100 [movC3w]).estado_semaforo = sAMARILLO ∧
    (clasificarCasa 100 [movC3w]).dias_atraso = 0 ∧
    (clasificarCasa 100 [movC3w]).cuotas_pendientes = 0 :=
  claim_C3_amended 100 [movC3w] (by rw [saldo_movC3w]; norm_num) cargos_movC3w

/-- Claim C4, counterexample: an overdue ALICUOTA charge of 50 together
with a payment of 49.99 leaves a strictly positive balance of 0.01 and a
non-empty overdue set of size one, yet the classifier reports zero overdue
count and zero days overdue: the code's gate is balance > 0.01, not
balance > 0. -/
theorem claim_C4_counterexample :
    saldoOf movsC4 = 1/100 ∧
    0 < saldoOf movsC4 ∧
    (cargosVencidos 100 movsC4).length = 1 ∧
    (clasificarCasa 100 movsC4).cuotas_pendientes = 0 ∧
    (clasificarCasa 100 movsC4).dias_atraso = 0 := by
  refine ⟨saldo_movsC4, by rw [saldo_movsC4]; norm_num, by rw [cargos_movsC4]; rfl, ?_, ?_⟩
  · rw [clasificar_movsC4]
  · rw [clasificar_movsC4]

/-- Claim C4, amended: for every movement list whose balance exceeds 0.01
and whose overdue set is non-empty, the classifier's overdue count is the
size of that set and its days overdue equal today minus the earliest
overdue due date: the days overdue are today minus one of the overdue due
dates, at least today minus any of them, and non-negative. -/
theorem claim_C4_amended (hoy : Int) (movs : List MovRecord)
    (h1 : 1/100 < saldoOf movs) (h2 : cargosVencidos hoy movs ≠ []) :
    (clasificarCasa hoy movs).cuotas_pendientes = (cargosVencidos hoy movs).length ∧
    ((clasificarCasa hoy movs).dias_atraso
        ∈ (cargosVencidos hoy movs).map (fun x => hoy - x.1)) ∧
    (∀ x ∈ cargosVencidos hoy movs, hoy - x.1 ≤ (clasificarCasa hoy movs).dias_atraso) ∧
    0 ≤ (clasificarCasa hoy movs).dias_atraso := by
  obtain ⟨c, cs, hc⟩ : ∃ c cs, cargosVencidos hoy movs = c :: cs := by
    cases hl : cargosVencidos hoy movs with
    | nil => exact absurd hl h2
    | cons c cs => exact ⟨c, cs, rfl⟩
  exact clasificar_dias_spec hoy movs c cs h1 hc

/-- Claim C4, amended, witness: the overdue-output characterisation applied
to the concrete forty-days-overdue scenario. -/
theorem claim_C4_amended_witness :
    (clasificarCasa 100 [movC4w]).cuotas_pendientes = (cargosVencidos 100 [movC4w]).length ∧
    ((clasificarCasa 100 [movC4w]).dias_atraso
        ∈ (cargosVencidos 100 [movC4w]).map (fun x => (100 : Int) - x.1)) ∧
    (∀ x ∈ cargosVencidos 100 [movC4w], (100 : Int) - x.1 ≤ (clasificarCasa 100 [movC4w]).dias_atraso) ∧
    0 ≤ (clasificarCasa 100 [movC4w]).dias_atraso :=
  claim_C4_amended 100 [movC4w] (by rw [saldo_movC4w]; norm_num)
    (by rw [cargos_movC4w]; simp)

/-- Claim C5: a consolidation run over the active-entity listing issues its
status writes exactly once per processed entity — the written entity ids
are, in order, the active ids with the treasury id 0 removed, they contain
no duplicate, and 0 is never among them. -/
theorem claim_C5 (user_records : List UserRecord) (movs : List MovRecord)
    (umap : Int → Option Contact) (hoy : Int) (wOk : Int → Bool) :
    (actualizar_semaforo (get_all_casa_ids user_records) movs umap hoy wOk).writes.map
        (fun w => w.1.id_casa)
      = (get_all_casa_ids user_records).filter (fun i => i != 0) ∧
    ((actualizar_semaforo (get_all_casa_ids user_records) movs umap hoy wOk).writes.map
        (fun w => w.1.id_casa)).Nodup ∧
    (0 : Int) ∉ (actualizar_semaforo (get_all_casa_ids user_records) movs umap hoy wOk).writes.map
        (fun w => w.1.id_casa) := by
  have h1 := actualizar_writes_ids (get_all_casa_ids user_records) movs umap hoy wOk
  refine ⟨h1, ?_, ?_⟩
  · rw [h1]
    exact (get_all_casa_ids_nodup user_records).filter _
  · rw [h1]
    intro hmem
    have := (List.mem_filter.mp hmem).2
    simp at this

/-- Claim C6: the balance is the exact sum of the parseable amounts, with a
malformed amount skipped rather than aborting; the empty list yields 0; and
the consolidation surfaces it rounded to two decimals, both in the status
write and in the result entry. -/
theorem claim_C6 (movs : List MovRecord) (hoy : Int) (movimientos : List MovRecord)
    (umap : Int → Option Contact) (wOk : Int → Bool) (c : Int) :
    saldoOf movs = (movs.filterMap (fun m => m.MONTO)).sum ∧
    saldoOf [] = 0 ∧
    (procesarCasa hoy movimientos umap wOk c).1.1.saldo
      = round2 (saldoOf (movimientos.filter (fun m => m.ID_CASA == c))) ∧
    (procesarCasa hoy movimientos umap wOk c).2.SALDO
      = round2 (saldoOf (movimientos.filter (fun m => m.ID_CASA == c))) := by
  refine ⟨saldoOf_eq_sum movs, rfl, ?_, ?_⟩
  · show round2 (clasificarCasa hoy (movimientos.filter (fun m => m.ID_CASA == c))).saldo
      = round2 (saldoOf (movimientos.filter (fun m => m.ID_CASA == c)))
    rw [clasificar_saldo]
  · show round2 (clasificarCasa hoy (movimientos.filter (fun m => m.ID_CASA == c))).saldo
      = round2 (saldoOf (movimientos.filter (fun m => m.ID_CASA == c)))
    rw [clasificar_saldo]

/-- Claim C7: the allocator returns the first id M0001 when no well-formed
id (prefix M followed by digits) exists — in particular on the empty list —
and otherwise the id numbered one past the maximal parsed suffix,
zero-padded to width four; malformed ids are skipped, so the scenario ids
M0001, M0003, X9999 yield M0004. -/
theorem claim_C7 (ids : List String) :
    generate_next_movement_id ids =
      (if (ids.filterMap movementSuffix).isEmpty then litM0001
       else formatMovementId ((ids.filterMap movementSuffix).foldl max 0 + 1)) ∧
    generate_next_movement_id [litM0001, litM0003, litX9999] = litM0004 := by
  constructor
  · unfold generate_next_movement_id
    by_cases hids : ids.isEmpty
    · rw [if_pos hids, List.isEmpty_iff.mp hids]
      simp
    · rw [if_neg hids, ← valid_map_eq_filterMap]
      by_cases hv : (ids.filter isValidMovId).isEmpty
      · simp only [if_pos hv, List.isEmpty_iff.mp hv, List.map_nil, List.isEmpty_nil, if_true]
        decide
      · simp only [if_neg hv]
        rw [if_neg (by
          intro hmap
          exact hv (by
            have hfil := List.map_eq_nil_iff.mp (List.isEmpty_iff.mp hmap)
            rw [hfil]
            rfl))]
  · decide

/-- Claim C8, counterexample: for non-treasury entity 5 holding one
movement of amount 50 and a stored status row whose balance column is 50,
the statement endpoint reports 0, not the 50 the movement-sum recomputation
would give: the endpoint reads the stored dictionary's missing
SALDO_PENDIENTE key instead of recomputing. -/
theorem claim_C8_counterexample :
    get_estado_cuenta_saldo 5 [movC8] (some rowC8) = 0 ∧
    saldoOf [movC8] = 50 ∧
    rowC8.SALDO = 50 ∧
    (0 : ℚ) ≠ 50 := by
  refine ⟨estado_cuenta_nontreasury 5 [movC8] (some rowC8) (by decide), ?_, rfl, by norm_num⟩
  norm_num [saldoOf, movC8]

/-- Claim C8, amended: the statement endpoint reports for every non-treasury
entity the rounded SALDO_PENDIENTE field of the stored (or synthesized)
status dictionary — a key the store lookup never populates, so the reported
balance is 0 — and recomputes the balance from the movement list only for
the treasury entity 0. -/
theorem claim_C8_amended (id_casa : Int) (movs : List MovRecord)
    (stored : Option SemaforoRow) (h : id_casa ≠ 0) :
    get_estado_cuenta_saldo id_casa movs stored = 0 ∧
    get_estado_cuenta_saldo 0 movs stored
      = round2 (movs.foldl (fun s m => s + m.MONTO.getD 0) 0) :=
  ⟨estado_cuenta_nontreasury id_casa movs stored h, estado_cuenta_treasury movs stored⟩

/-- Claim C8, amended, witness: entity 5 with no movements and no stored
row reports 0, and the treasury reports its rounded recomputed sum. -/
theorem claim_C8_amended_witness :
    get_estado_cuenta_saldo 5 [] none = 0 ∧
    get_estado_cuenta_saldo 0 [] none
      = round2 (([] : List MovRecord).foldl (fun s m => s + m.MONTO.getD 0) 0) :=
  claim_C8_amended 5 [] none (by decide)

/-- Claim C9: the consolidation response is oblivious to status-write
failures — results, status and reported count agree for any two success
oracles, the write payloads agree as well, every processed entity (one per
non-zero id) contributes a result entry carrying its id, and the reported
count equals the results length — so a caller cannot tell a failed write
from a successful one. -/
theorem claim_C9 (ids : List Int) (movs : List MovRecord) (umap : Int → Option Contact)
    (hoy : Int) (wOk wOk' : Int → Bool) :
    (actualizar_semaforo ids movs umap hoy wOk).results
        = (actualizar_semaforo ids movs umap hoy wOk').results ∧
    (actualizar_semaforo ids movs umap hoy wOk).status
        = (actualizar_semaforo ids movs umap hoy wOk').status ∧
    (actualizar_semaforo ids movs umap hoy wOk).message_count
        = (actualizar_semaforo ids movs umap hoy wOk').message_count ∧
    (actualizar_semaforo ids movs umap hoy wOk).writes.map Prod.fst
        = (actualizar_semaforo ids movs umap hoy wOk').writes.map Prod.fst ∧
    (actualizar_semaforo ids movs umap hoy wOk).results.length
        = (ids.filter (fun i => i != 0)).length ∧
    (actualizar_semaforo ids movs umap hoy wOk).message_count
        = (actualizar_semaforo ids movs umap hoy wOk).results.length ∧
    (actualizar_semaforo ids movs umap hoy wOk).results.map (fun r => r.ID_CASA)
        = (ids.filter (fun i => i != 0)).map (fun i => toString i) := by
  obtain ⟨a, b, c, d⟩ := actualizar_indep ids movs umap hoy wOk wOk'
  obtain ⟨e, f, g⟩ := actualizar_results_length ids movs umap hoy wOk
  exact ⟨a, b, c, d, e, f, g⟩

/-- Claim C10: every status write a consolidation run emits satisfies the
invariant that severity VERDE comes only with zero days overdue and zero
pending dues. -/
theorem claim_C10 (ids : List Int) (movs : List MovRecord) (umap : Int → Option Contact)
    (hoy : Int) (wOk : Int → Bool) (w : SemaforoWrite × Bool)
    (hw : w ∈ (actualizar_semaforo ids movs umap hoy wOk).writes)
    (hv : w.1.estado = sVERDE) :
    w.1.dias_atraso = 0 ∧ w.1.cuotas_pendientes = 0 := by
  unfold actualizar_semaforo at hw
  by_cases h : (ids.filter (fun i => i != 0)).isEmpty
  · rw [if_pos h] at hw
    simp at hw
  · rw [if_neg h] at hw
    simp only [List.map_map, List.mem_map] at hw
    obtain ⟨c, _, hc⟩ := hw
    subst hc
    exact clasificar_verde hoy (movs.filter (fun m => m.ID_CASA == c)) hv

/-- Claim C10, witness: the run over one entity with no movements emits the
VERDE write with zero counters, and the invariant applies to it. -/
theorem claim_C10_witness :
    ((⟨1, 0, round2 0, sVERDE, 0⟩ : SemaforoWrite), true).1.dias_atraso = 0 ∧
    ((⟨1, 0, round2 0, sVERDE, 0⟩ : SemaforoWrite), true).1.cuotas_pendientes = 0 := by
  have hclas : clasificarCasa 0 ([] : List MovRecord) = ⟨0, sVERDE, 0, 0⟩ := by
    rw [clasificar_of_le 0 [] (by norm_num [saldoOf])]
    rfl
  refine claim_C10 [1] [] (fun i => none) 0 (fun i => true)
    ((⟨1, 0, round2 0, sVERDE, 0⟩ : SemaforoWrite), true) ?_ rfl
  unfold actualizar_semaforo
  rw [if_neg (by decide)]
  rw [show ([1] : List Int).filter (fun i => i != 0) = [1] from by decide]
  simp only [List.map_cons, List.map_nil, List.mem_singleton]
  simp only [procesarCasa, List.filter_nil, hclas]
